import Mathlib

/-!
Verification of the ROI calculator in `src/components/ROICalculator.tsx`.
Numbers are modelled as rationals; `Math.round` of JavaScript is modelled
as `jsRound` (round half toward positive infinity). Division follows the
rational convention `x / 0 = 0`; the claims touching division by zero are
settled through the guarded variant `calculateROIChecked`, which returns
`none` exactly when a divisor of the original code is zero.
-/

namespace ROIWizard

/-- JavaScript's `Math.round`: nearest integer, halves toward `+∞`
(`Math.round x = ⌊x + 1/2⌋`), through the kernel-reducible `Rat.floor`. -/
def jsRound (q : ℚ) : ℤ := (q + 1/2).floor

theorem jsRound_eq_floor (q : ℚ) : jsRound q = ⌊q + 1/2⌋ := by
  rw [jsRound, Rat.floor_def', ← Rat.floor_def]

/-- JavaScript's `Math.max` on two numbers (kernel-reducible). -/
def jsMax (a b : ℚ) : ℚ := if a ≤ b then b else a

/-- JavaScript's `Math.min` on two numbers (kernel-reducible). -/
def jsMin (a b : ℚ) : ℚ := if a ≤ b then a else b

theorem jsMax_eq_max (a b : ℚ) : jsMax a b = max a b := by
  simp [jsMax, max_def]

theorem jsMin_eq_min (a b : ℚ) : jsMin a b = min a b := by
  simp [jsMin, min_def]

/-- The ten numeric inputs of the calculator (`CalculatorInputs` in the
source), in declaration order. -/
structure CalculatorInputs where
  current_maintenance_cost : ℚ
  projected_maintenance_cost : ℚ
  current_downtime_hours : ℚ
  downtime_cost_per_hour : ℚ
  downtime_reduction_percent : ℚ
  current_deployments_per_year : ℚ
  deployment_increase_percent : ℚ
  modernization_cost : ℚ
  productivity_gain_percent : ℚ
  team_salary_cost : ℚ
deriving DecidableEq, Repr

/-- The four outputs (`ROIResults` in the source). -/
structure ROIResults where
  roi_percentage : ℚ
  payback_months : ℚ
  net_benefit_3_years : ℚ
  annual_savings : ℚ
deriving DecidableEq, Repr

/-- `maintenance_savings` of `calculateROI` (line 51). -/
def maintenance_savings (i : CalculatorInputs) : ℚ :=
  i.current_maintenance_cost - i.projected_maintenance_cost

/-- `current_annual_downtime_cost` (line 54). -/
def current_annual_downtime_cost (i : CalculatorInputs) : ℚ :=
  i.current_downtime_hours * 12 * i.downtime_cost_per_hour

/-- `downtime_savings` (line 55). -/
def downtime_savings (i : CalculatorInputs) : ℚ :=
  current_annual_downtime_cost i * (i.downtime_reduction_percent / 100)

/-- `productivity_value` (line 58). -/
def productivity_value (i : CalculatorInputs) : ℚ :=
  i.team_salary_cost * (i.productivity_gain_percent / 100)

/-- `deployment_efficiency_gain` (line 61): `Math.min(50000, ...)`. -/
def deployment_efficiency_gain (i : CalculatorInputs) : ℚ :=
  jsMin 50000 (i.current_deployments_per_year * 1000 * (i.deployment_increase_percent / 100))

/-- `total_annual_savings` (line 64). -/
def total_annual_savings (i : CalculatorInputs) : ℚ :=
  maintenance_savings i + downtime_savings i + productivity_value i +
    deployment_efficiency_gain i

/-- `three_year_benefits` (line 67). -/
def three_year_benefits (i : CalculatorInputs) : ℚ := total_annual_savings i * 3

/-- `net_benefit` (line 68). -/
def net_benefit (i : CalculatorInputs) : ℚ :=
  three_year_benefits i - i.modernization_cost

/-- `roi` (line 71): `(net_benefit / modernization_cost) * 100`. -/
def roi (i : CalculatorInputs) : ℚ := net_benefit i / i.modernization_cost * 100

/-- `payback_months` local of `calculateROI` (line 74):
`Math.max(1, Math.round((modernization_cost / total_annual_savings) * 12))`. -/
def payback_months_raw (i : CalculatorInputs) : ℤ :=
  max 1 (jsRound (i.modernization_cost / total_annual_savings i * 12))

/-- `calculateROI` (lines 49 to 82), results as passed to `setResults`
(lines 76 to 81): fields in order `roi_percentage`, `payback_months`,
`net_benefit_3_years`, `annual_savings`. -/
def calculateROI (i : CalculatorInputs) : ROIResults :=
  ⟨jsMax 50 ((jsRound (roi i) : ℚ)),
   jsMin 18 ((payback_months_raw i : ℚ)),
   net_benefit i,
   total_annual_savings i⟩

/-- Default inputs of the `useState` initializer (lines 29 to 40), in
field order: maintenance 250000 and 150000, downtime 20 hours at 5000
reduced 60 percent, 12 deployments increased 200 percent, cost 500000,
productivity 25 percent on salaries 800000. -/
def defaultInputs : CalculatorInputs :=
  ⟨250000, 150000, 20, 5000, 60, 12, 200, 500000, 25, 800000⟩

/-- Division that reports a zero divisor instead of returning a junk
value, used to locate the unguarded divisions of the source. -/
def checkedDiv (a b : ℚ) : Option ℚ := if b = 0 then none else some (a / b)

/-- `calculateROI` with each division of the source guarded: the ROI step
divides by `modernization_cost` (line 71) and the payback step divides by
`total_annual_savings` (line 74); these are the only divisions whose
divisor is an input-dependent value (the divisions by the constant 100
cannot be zero). -/
def calculateROIChecked (i : CalculatorInputs) : Option ROIResults := do
  let r ← checkedDiv (net_benefit i) i.modernization_cost
  let p ← checkedDiv i.modernization_cost (total_annual_savings i)
  pure ⟨jsMax 50 ((jsRound (r * 100) : ℚ)),
        jsMin 18 ((max 1 (jsRound (p * 12)) : ℚ)),
        net_benefit i,
        total_annual_savings i⟩

/-- The numeric coercion of `handleInputChange` (line 89):
`const numValue = parseFloat(value) || 0`. The parse result is `none`
when `parseFloat` returns `NaN`; the `|| 0` maps the falsy values `NaN`
and `0` to `0` and leaves every other number unchanged. -/
def numValue (parsed : Option ℚ) : ℚ :=
  match parsed with
  | none => 0
  | some v => if v = 0 then 0 else v

/-- Replace only the `current_maintenance_cost` field, leaving the other
nine fields unchanged. -/
def setMaintenanceCost (i : CalculatorInputs) (c : ℚ) : CalculatorInputs :=
  ⟨c, i.projected_maintenance_cost, i.current_downtime_hours,
   i.downtime_cost_per_hour, i.downtime_reduction_percent,
   i.current_deployments_per_year, i.deployment_increase_percent,
   i.modernization_cost, i.productivity_gain_percent, i.team_salary_cost⟩

/-- An input where costs rise instead of fall: only
`projected_maintenance_cost = 50` and `modernization_cost = 100` are set,
so the total annual savings are negative. -/
def lossInputs : CalculatorInputs :=
  ⟨0, 50, 0, 0, 0, 0, 0, 100, 0, 0⟩

/-- Every input field is strictly positive. -/
def PositiveInputs (i : CalculatorInputs) : Prop :=
  0 < i.current_maintenance_cost ∧ 0 < i.projected_maintenance_cost ∧
  0 < i.current_downtime_hours ∧ 0 < i.downtime_cost_per_hour ∧
  0 < i.downtime_reduction_percent ∧ 0 < i.current_deployments_per_year ∧
  0 < i.deployment_increase_percent ∧ 0 < i.modernization_cost ∧
  0 < i.productivity_gain_percent ∧ 0 < i.team_salary_cost

/-- C1: for every input record, `annual_savings` is exactly the sum of the
four benefit terms (maintenance difference, downtime savings, productivity
value, and the deployment term capped at 50000) and `net_benefit_3_years`
is three times that sum minus `modernization_cost`; both pass through
`calculateROI` with no clamping or rounding. -/
theorem annual_savings_net_benefit_formula (i : CalculatorInputs) :
    (calculateROI i).annual_savings =
      (i.current_maintenance_cost - i.projected_maintenance_cost) +
        (i.current_downtime_hours * 12 * i.downtime_cost_per_hour) *
          (i.downtime_reduction_percent / 100) +
        i.team_salary_cost * (i.productivity_gain_percent / 100) +
        min 50000 (i.current_deployments_per_year * 1000 *
          (i.deployment_increase_percent / 100)) ∧
    (calculateROI i).net_benefit_3_years =
      ((i.current_maintenance_cost - i.projected_maintenance_cost) +
        (i.current_downtime_hours * 12 * i.downtime_cost_per_hour) *
          (i.downtime_reduction_percent / 100) +
        i.team_salary_cost * (i.productivity_gain_percent / 100) +
        min 50000 (i.current_deployments_per_year * 1000 *
          (i.deployment_increase_percent / 100))) * 3 -
        i.modernization_cost := by
  constructor <;>
    simp [calculateROI, net_benefit, three_year_benefits, total_annual_savings,
      maintenance_savings, downtime_savings, current_annual_downtime_cost,
      productivity_value, deployment_efficiency_gain, jsMin_eq_min]

/-- C2: on the default inputs the calculator returns
`roi_percentage = 526`, `payback_months = 6`,
`net_benefit_3_years = 2632000` and `annual_savings = 1044000`. -/
theorem default_scenario_results :
    calculateROI defaultInputs = ⟨526, 6, 2632000, 1044000⟩ := by
  have hts : total_annual_savings defaultInputs = 1044000 := by
    norm_num [total_annual_savings, maintenance_savings, downtime_savings,
      current_annual_downtime_cost, productivity_value,
      deployment_efficiency_gain, jsMin, defaultInputs]
  have hnb : net_benefit defaultInputs = 2632000 := by
    rw [net_benefit, three_year_benefits, hts]
    norm_num [defaultInputs]
  have hroi : roi defaultInputs = 2632 / 5 := by
    rw [roi, hnb]
    norm_num [defaultInputs]
  have hr : jsRound (roi defaultInputs) = 526 := by
    rw [hroi, jsRound_eq_floor, Int.floor_eq_iff]
    norm_num
  have hp : payback_months_raw defaultInputs = 6 := by
    rw [payback_months_raw, hts]
    have h6 : jsRound (defaultInputs.modernization_cost / 1044000 * 12) = 6 := by
      rw [jsRound_eq_floor, Int.floor_eq_iff]
      norm_num [defaultInputs]
    rw [h6]
    decide
  simp only [calculateROI, hr, hp, hnb, hts]
  norm_num [jsMax, jsMin]

/-- C3: whenever `modernization_cost > 0`, the reported ROI percentage is
`max 50 (round(((annual_savings * 3 - modernization_cost) /
modernization_cost) * 100))`, hence always at least 50. -/
theorem roi_percentage_floor_formula (i : CalculatorInputs)
    (h : 0 < i.modernization_cost) :
    (calculateROI i).roi_percentage =
      max 50 ((jsRound (((calculateROI i).annual_savings * 3 -
        i.modernization_cost) / i.modernization_cost * 100) : ℚ)) ∧
    50 ≤ (calculateROI i).roi_percentage := by
  constructor
  · simp [calculateROI, roi, net_benefit, three_year_benefits, jsMax_eq_max]
  · rw [calculateROI, jsMax_eq_max]
    exact le_max_left _ _

/-- Witness for the ROI floor formula at the default inputs. -/
theorem roi_percentage_floor_formula_witness :
    0 < defaultInputs.modernization_cost ∧
      50 ≤ (calculateROI defaultInputs).roi_percentage :=
  ⟨by norm_num [defaultInputs],
   (roi_percentage_floor_formula defaultInputs (by norm_num [defaultInputs])).2⟩

/-- C4: for strictly positive inputs with positive total annual savings,
the displayed payback is `min 18 (max 1 (round(cost / savings * 12)))`, an
integer between 1 and 18, and the ROI percentage is at least 50. -/
theorem payback_months_bounds (i : CalculatorInputs)
    (hpos : PositiveInputs i) (hts : 0 < total_annual_savings i) :
    (calculateROI i).payback_months =
      ((min 18 (max 1 (jsRound (i.modernization_cost /
        total_annual_savings i * 12))) : ℤ) : ℚ) ∧
    1 ≤ (calculateROI i).payback_months ∧
    (calculateROI i).payback_months ≤ 18 ∧
    50 ≤ (calculateROI i).roi_percentage := by
  have heq : (calculateROI i).payback_months =
      ((min 18 (max 1 (jsRound (i.modernization_cost /
        total_annual_savings i * 12))) : ℤ) : ℚ) := by
    rw [calculateROI, jsMin_eq_min, payback_months_raw]
    push_cast
    rfl
  refine ⟨heq, ?_, ?_, ?_⟩
  · rw [heq]
    have : (1 : ℤ) ≤ min 18 (max 1 (jsRound (i.modernization_cost /
        total_annual_savings i * 12))) := by omega
    exact_mod_cast this
  · rw [heq]
    have : min 18 (max 1 (jsRound (i.modernization_cost /
        total_annual_savings i * 12))) ≤ (18 : ℤ) := by omega
    exact_mod_cast this
  · rw [calculateROI, jsMax_eq_max]
    exact le_max_left _ _

/-- Witness for the payback bounds at the default inputs. -/
theorem payback_months_bounds_witness :
    (PositiveInputs defaultInputs ∧ 0 < total_annual_savings defaultInputs) ∧
      1 ≤ (calculateROI defaultInputs).payback_months := by
  have hpos : PositiveInputs defaultInputs := by
    norm_num [PositiveInputs, defaultInputs]
  have hts : 0 < total_annual_savings defaultInputs := by
    norm_num [total_annual_savings, maintenance_savings, downtime_savings,
      current_annual_downtime_cost, productivity_value,
      deployment_efficiency_gain, jsMin, defaultInputs]
  exact ⟨⟨hpos, hts⟩, (payback_months_bounds defaultInputs hpos hts).2.1⟩

/-- C5: the deployment efficiency term is capped: it never exceeds 50000,
however large the deployment inputs are. -/
theorem deployment_gain_capped (i : CalculatorInputs) :
    deployment_efficiency_gain i ≤ 50000 := by
  rw [deployment_efficiency_gain, jsMin_eq_min]
  exact min_le_left _ _

/-- C6 counterexample: the coercion `parseFloat(value) || 0` of
`handleInputChange` does not turn a negative parsed number into 0: the
parsed value `-5` reaches the state unchanged. -/
theorem negative_input_not_coerced : numValue (some (-5)) ≠ 0 := by
  norm_num [numValue]

/-- C6 amended: non-numeric text (a failed parse) coerces to 0, but every
successfully parsed number, negative ones included, passes through
unchanged, so `calculateROI` can receive negative inputs. -/
theorem numValue_spec :
    numValue none = 0 ∧ ∀ v : ℚ, numValue (some v) = v := by
  refine ⟨rfl, fun v => ?_⟩
  by_cases h : v = 0 <;> simp [numValue, h]

/-- C7: the only divisions of `calculateROI` whose divisor depends on the
inputs are the ROI step (by `modernization_cost`) and the payback step (by
`total_annual_savings`); the guarded variant fails exactly when one of
those two divisors is zero and otherwise agrees with the unguarded
function, which contains no other failure point. -/
theorem checked_divisions (i : CalculatorInputs) :
    calculateROIChecked i =
      if i.modernization_cost = 0 ∨ total_annual_savings i = 0 then none
      else some (calculateROI i) := by
  rcases eq_or_ne i.modernization_cost 0 with hc | hc <;>
    rcases eq_or_ne (total_annual_savings i) 0 with ht | ht <;>
      simp [calculateROIChecked, checkedDiv, hc, ht, calculateROI, roi,
        payback_months_raw]

/-- C8: raising only `current_maintenance_cost` never lowers
`annual_savings` or `net_benefit_3_years`. -/
theorem monotone_in_maintenance_cost (i : CalculatorInputs) (c1 c2 : ℚ)
    (h : c1 ≤ c2) :
    (calculateROI (setMaintenanceCost i c1)).annual_savings ≤
      (calculateROI (setMaintenanceCost i c2)).annual_savings ∧
    (calculateROI (setMaintenanceCost i c1)).net_benefit_3_years ≤
      (calculateROI (setMaintenanceCost i c2)).net_benefit_3_years := by
  have key : total_annual_savings (setMaintenanceCost i c1) ≤
      total_annual_savings (setMaintenanceCost i c2) := by
    simp only [total_annual_savings, maintenance_savings, downtime_savings,
      current_annual_downtime_cost, productivity_value,
      deployment_efficiency_gain, setMaintenanceCost]
    linarith
  constructor
  · simpa [calculateROI] using key
  · simp only [calculateROI, net_benefit, three_year_benefits,
      setMaintenanceCost]
    simp only [total_annual_savings, maintenance_savings, downtime_savings,
      current_annual_downtime_cost, productivity_value,
      deployment_efficiency_gain, setMaintenanceCost] at key ⊢
    linarith

/-- Witness for monotonicity: maintenance cost 0 versus 1 on the default
inputs. -/
theorem monotone_in_maintenance_cost_witness :
    (calculateROI (setMaintenanceCost defaultInputs 0)).annual_savings ≤
      (calculateROI (setMaintenanceCost defaultInputs 1)).annual_savings :=
  (monotone_in_maintenance_cost defaultInputs 0 1 (by norm_num)).1

/-- C9: `calculateROI` is a pure function of the ten input fields: equal
input records give equal values in all four output fields, and nothing
else enters the computation. -/
theorem calculateROI_deterministic (i j : CalculatorInputs) (h : i = j) :
    (calculateROI i).roi_percentage = (calculateROI j).roi_percentage ∧
    (calculateROI i).payback_months = (calculateROI j).payback_months ∧
    (calculateROI i).net_benefit_3_years =
      (calculateROI j).net_benefit_3_years ∧
    (calculateROI i).annual_savings = (calculateROI j).annual_savings := by
  subst h
  exact ⟨rfl, rfl, rfl, rfl⟩

/-- Witness for determinism at the default inputs. -/
theorem calculateROI_deterministic_witness :
    (calculateROI defaultInputs).roi_percentage =
      (calculateROI defaultInputs).roi_percentage :=
  (calculateROI_deterministic defaultInputs defaultInputs rfl).1

/-- C10: with a positive modernization cost and negative total annual
savings, the rounded negative ratio is clamped up by the floor at 1, so a
net annual loss is displayed as a one month payback. -/
theorem negative_savings_payback_one (i : CalculatorInputs)
    (hc : 0 < i.modernization_cost) (ht : total_annual_savings i < 0) :
    (calculateROI i).payback_months = 1 := by
  have hx : i.modernization_cost / total_annual_savings i * 12 < 0 := by
    have hdiv : i.modernization_cost / total_annual_savings i < 0 :=
      div_neg_of_pos_of_neg hc ht
    linarith
  have hr : jsRound (i.modernization_cost / total_annual_savings i * 12) < 1 := by
    rw [jsRound_eq_floor]
    rw [Int.floor_lt]
    push_cast
    linarith
  have hraw : payback_months_raw i = 1 := by
    rw [payback_months_raw]
    omega
  rw [calculateROI]
  simp only [hraw]
  norm_num [jsMin]

/-- Witness for the one month payback on an input whose costs rise. -/
theorem negative_savings_payback_one_witness :
    (0 < lossInputs.modernization_cost ∧ total_annual_savings lossInputs < 0) ∧
      (calculateROI lossInputs).payback_months = 1 := by
  have hc : 0 < lossInputs.modernization_cost := by norm_num [lossInputs]
  have ht : total_annual_savings lossInputs < 0 := by
    norm_num [total_annual_savings, maintenance_savings, downtime_savings,
      current_annual_downtime_cost, productivity_value,
      deployment_efficiency_gain, jsMin, lossInputs]
  exact ⟨⟨hc, ht⟩, negative_savings_payback_one lossInputs hc ht⟩

end ROIWizard
